import Mathlib

/-!
Shallow embedding of `src/climate.py` (Nature Remo AC climate entity).

The Python class `NatureRemoAC` holds mutable fields
(`_hvac_mode`, `_target_temperature`, `_remo_mode`, `_fan_mode`,
`_swing_mode`) plus immutable configuration (`_default_temp`, `_modes`).
We model the object as an explicit `ACState` record; methods become
functions from `ACState` (and arguments) to results, returning the new
state where the method can mutate it.  A Python statement that can raise
is modelled with `Option`: `Option.none` is an uncaught exception.
-/

namespace NatureRemo

/-- The six Home Assistant hvac-mode constants used by the component
(`HVAC_MODE_AUTO`, `HVAC_MODE_COOL`, `HVAC_MODE_DRY`,
`HVAC_MODE_FAN_ONLY`, `HVAC_MODE_HEAT`, `HVAC_MODE_OFF`). -/
inductive HvacMode where
  | auto
  | cool
  | dry
  | fan_only
  | heat
  | off
deriving DecidableEq, Repr

/-- A Python value occurring in an outbound payload: a string, a bare
integer, or `None`. -/
inductive PyVal where
  | str (s : String)
  | int (n : ℤ)
  | null
deriving DecidableEq, Repr

/-- An outbound payload: the flat dict handed to `self._post`. -/
abbrev Payload := List (String × PyVal)

/-- `MODE_HA_TO_REMO` from climate.py.  The Python dict is keyed by the
six HA constants, so on the `HvacMode` type it is a total function. -/
def MODE_HA_TO_REMO : HvacMode → String
  | HvacMode.auto => "auto"
  | HvacMode.fan_only => "blow"
  | HvacMode.cool => "cool"
  | HvacMode.dry => "dry"
  | HvacMode.heat => "warm"
  | HvacMode.off => "power-off"

/-- `MODE_REMO_TO_HA` from climate.py.  A dict lookup keyed by arbitrary
strings: `Option.none` models a `KeyError`. -/
def MODE_REMO_TO_HA : String → Option HvacMode
  | "auto" => some HvacMode.auto
  | "blow" => some HvacMode.fan_only
  | "cool" => some HvacMode.cool
  | "dry" => some HvacMode.dry
  | "warm" => some HvacMode.heat
  | "power-off" => some HvacMode.off
  | _ => Option.none

/-- One value of `appliance["aircon"]["range"]["modes"]`: the capability
entry of one raw mode ("temp" / "vol" / "dir" lists).  A "temp" element
may be a string or Python `None`. -/
structure ACModeEntry where
  temp : List (Option String)
  vol : List String
  dir : List String
deriving DecidableEq, Repr

/-- The `ac_settings` dict (`appliance["settings"]`).  `temp` is
`Option String` so that an absent reading (KeyError inside the guarded
`float(...)` statement) is expressible; the other four fields are read
unguarded by the code, so they are plain strings here. -/
structure AcSettings where
  mode : String
  temp : Option String
  button : String
  vol : String
  dir : String
deriving DecidableEq, Repr

/-- The fields of a `NatureRemoAC` instance. `default_temp_cool` /
`default_temp_heat` are the two configured integers of
`self._default_temp`; `modes` is `self._modes` as an association list. -/
structure ACState where
  default_temp_cool : ℤ
  default_temp_heat : ℤ
  modes : List (String × ACModeEntry)
  hvac_mode : Option HvacMode
  target_temperature : Option ℚ
  remo_mode : Option String
  fan_mode : Option String
  swing_mode : Option String
deriving DecidableEq, Repr

/-- Python dict lookup on an association list (`KeyError` ↦ `none`). -/
def lookupDict {α : Type} (m : List (String × α)) (k : String) : Option α :=
  (m.find? (fun p => p.1 == k)).map Prod.snd

/-- Numeric value of a list of decimal digit characters. -/
def digitsVal (cs : List Char) : ℕ :=
  cs.foldl (fun a c => a * 10 + (c.toNat - 48)) 0

/-- Python's `float(s)` on the decimal-literal fragment relevant here:
optional sign, digits, optional decimal point and fraction digits.
`Option.none` models the `ValueError` on anything else (e.g. `""`,
`"abc"`). -/
def pyFloatOfString (s : String) : Option ℚ :=
  let cs := s.toList
  let signNeg : Bool := cs.head? = some '-'
  let cs1 := if cs.head? = some '-' ∨ cs.head? = some '+' then cs.tail else cs
  let ip := cs1.takeWhile Char.isDigit
  let rest := cs1.dropWhile Char.isDigit
  let withSign : ℚ → ℚ := fun v => if signNeg then -v else v
  match rest with
  | [] =>
      if ip.isEmpty then Option.none
      else some (withSign (digitsVal ip : ℚ))
  | '.' :: fp =>
      if fp.all Char.isDigit && (!ip.isEmpty || !fp.isEmpty) then
        some (withSign ((digitsVal ip : ℚ) + (digitsVal fp : ℚ) / (10 : ℚ) ^ fp.length))
      else Option.none
  | _ => Option.none

/-- Python truthiness of a "temp" capability element, as used by
`filter(None, temp_range)`: `None` and `""` are falsy. -/
def pyTruthy : Option String → Bool
  | Option.none => false
  | some s => s ≠ ""

/-- Python's `int(s)` on a string: optional sign followed by decimal
digits.  `Option.none` models the `ValueError` on anything else
(e.g. `""`, `"abc"`, `"24.7"`). -/
def pyIntOfString (s : String) : Option ℤ :=
  let cs := s.toList
  let signNeg : Bool := cs.head? = some '-'
  let ds := if cs.head? = some '-' ∨ cs.head? = some '+' then cs.tail else cs
  if !ds.isEmpty && ds.all Char.isDigit then
    some ((if signNeg then -1 else 1) * (digitsVal ds : ℤ))
  else Option.none

/-- `list(map(int, ...))` over "temp" elements: `int(x)` parses a string
(`Option.none` models the `ValueError`/`TypeError` raised on a
non-integer string or on `None`). -/
def mapIntList : List (Option String) → Option (List ℤ)
  | [] => some []
  | o :: t =>
      match o.bind pyIntOfString, mapIntList t with
      | some n, some ns => some (n :: ns)
      | _, _ => Option.none

/-- First half of `NatureRemoAC._update`: the statements before the
button test.  These never raise: `self._remo_mode = ac_settings["mode"]`
and the `try: ... float(ac_settings["temp"]) ... except: ... None`
assignment. -/
def _update_pre (st : ACState) (s : AcSettings) : ACState :=
  { st with
      remo_mode := some s.mode
      target_temperature := s.temp.bind pyFloatOfString }

/-- `NatureRemoAC._update` (ingestion).  After the guarded temperature
parse, `self._hvac_mode` is `HVAC_MODE_OFF` when
`ac_settings["button"] == MODE_HA_TO_REMO[HVAC_MODE_OFF]`, else
`MODE_REMO_TO_HA[self._remo_mode]` — the latter dict lookup raises
`KeyError` (`Option.none`) on an unrecognized mode.  Finally
`ac_settings["vol"] or None` / `ac_settings["dir"] or None`. -/
def _update (st : ACState) (s : AcSettings) : Option ACState :=
  let st1 := _update_pre st s
  let hv : Option HvacMode :=
    if s.button = MODE_HA_TO_REMO HvacMode.off then some HvacMode.off
    else MODE_REMO_TO_HA s.mode
  match hv with
  | Option.none => Option.none
  | some h =>
      some { st1 with
              hvac_mode := some h
              fan_mode := if s.vol = "" then Option.none else some s.vol
              swing_mode := if s.dir = "" then Option.none else some s.dir }

/-- `self._modes[self._remo_mode]`: the capability lookup keyed by the
retained raw mode (`KeyError` ↦ `none`, including when `_remo_mode` is
still `None`). -/
def lookupModes (st : ACState) : Option ACModeEntry :=
  st.remo_mode.bind (fun k => lookupDict st.modes k)

/-- `NatureRemoAC._current_mode_temp_range`:
`list(map(int, filter(None, self._modes[self._remo_mode]["temp"])))`. -/
def _current_mode_temp_range (st : ACState) : Option (List ℤ) :=
  (lookupModes st).bind (fun e => mapIntList (e.temp.filter pyTruthy))

/-- `DEFAULT_MIN_TEMP` imported from Home Assistant (7 °C). -/
def DEFAULT_MIN_TEMP : ℚ := 7

/-- `DEFAULT_MAX_TEMP` imported from Home Assistant (35 °C). -/
def DEFAULT_MAX_TEMP : ℚ := 35

/-- Property `NatureRemoAC.min_temp`. -/
def min_temp (st : ACState) : Option ℚ :=
  (_current_mode_temp_range st).map (fun tr =>
    match tr.min? with
    | some m => (m : ℚ)
    | Option.none => DEFAULT_MIN_TEMP)

/-- Property `NatureRemoAC.max_temp`. -/
def max_temp (st : ACState) : Option ℚ :=
  (_current_mode_temp_range st).map (fun tr =>
    match tr.max? with
    | some m => (m : ℚ)
    | Option.none => DEFAULT_MAX_TEMP)

/-- Property `NatureRemoAC.fan_modes`: `self._modes[self._remo_mode]["vol"]`. -/
def fan_modes (st : ACState) : Option (List String) :=
  (lookupModes st).map ACModeEntry.vol

/-- Property `NatureRemoAC.swing_modes`: `self._modes[self._remo_mode]["dir"]`. -/
def swing_modes (st : ACState) : Option (List String) :=
  (lookupModes st).map ACModeEntry.dir

/-- `self._default_temp.get(hvac_mode)`: the dict is built in `__init__`
with exactly the keys `HVAC_MODE_COOL` and `HVAC_MODE_HEAT`; `.get`
returns `None` for the other modes. -/
def _default_temp_get (st : ACState) : HvacMode → Option ℤ
  | HvacMode.cool => some st.default_temp_cool
  | HvacMode.heat => some st.default_temp_heat
  | _ => Option.none

/-- Injection of `self._default_temp.get(...)`'s result into a payload
value: a configured integer or `None`. -/
def pyOfOptInt : Option ℤ → PyVal
  | some n => PyVal.int n
  | Option.none => PyVal.null

/-- `NatureRemoAC.set_hvac_mode`.  The argument is one of the six HA
constants (the entity only ever receives members of `hvac_modes`), so
the `MODE_HA_TO_REMO[hvac_mode]` lookup is total here.  The method posts
a payload and leaves every field untouched; we return `(state, payload)`. -/
def set_hvac_mode (st : ACState) (hvac_mode : HvacMode) : ACState × Payload :=
  let mode := MODE_HA_TO_REMO hvac_mode
  if mode = MODE_HA_TO_REMO HvacMode.off then
    (st, [("button", PyVal.str mode)])
  else
    (st, [("operation_mode", PyVal.str mode),
          ("temperature", pyOfOptInt (_default_temp_get st hvac_mode))])

/-- Python's `int(x)` on a float: truncation toward zero. -/
def pyTrunc (q : ℚ) : ℤ := if 0 ≤ q then ⌊q⌋ else ⌈q⌉

/-- The value of `kwargs.get(ATTR_TEMPERATURE)` in `set_temperature`:
absent (or explicitly `None`), a number, or a string. -/
inductive PyTempArg where
  | absent
  | num (q : ℚ)
  | str (s : String)
deriving DecidableEq, Repr

/-- `int(target_temp)` for a present argument: truncation for a number,
integer-literal parse for a string (`Option.none` is the `ValueError`). -/
def pyIntOfArg : PyTempArg → Option ℤ
  | PyTempArg.num q => some (pyTrunc q)
  | PyTempArg.str s => pyIntOfString s
  | PyTempArg.absent => Option.none

/-- `NatureRemoAC.set_temperature`.  Result: `none` = the `int(...)`
conversion raised; `some (st, none)` = early return, nothing posted;
`some (st, some p)` = payload `p` posted.  `f"{target_temp}"`
stringifies the converted integer. -/
def set_temperature (st : ACState) (arg : PyTempArg) :
    Option (ACState × Option Payload) :=
  match arg with
  | PyTempArg.absent => some (st, Option.none)
  | a =>
      match pyIntOfArg a with
      | some n => some (st, some [("temperature", PyVal.str (toString n))])
      | Option.none => Option.none

/-- `NatureRemoAC.set_fan_mode`: posts `{"air_volume": fan_mode}`. -/
def set_fan_mode (st : ACState) (fan_mode : String) : ACState × Payload :=
  (st, [("air_volume", PyVal.str fan_mode)])

/-- `NatureRemoAC.async_set_swing_mode`: posts `{"air_direction": swing_mode}`. -/
def async_set_swing_mode (st : ACState) (swing_mode : String) : ACState × Payload :=
  (st, [("air_direction", PyVal.str swing_mode)])

/-- Predicate on payload values: the value is a string or `None`
(not a bare integer). -/
def isStrOrNull : PyVal → Bool
  | PyVal.int _ => false
  | _ => true

/-- A capability entry whose "temp" list is the spec's range-derivation
example `["18", "", "30", None]`. -/
def exEntry : ACModeEntry :=
  ⟨[some "18", some "", some "30", Option.none], ["1", "auto"], ["swing", "auto"]⟩

/-- A capability entry whose "temp" list is in descending order. -/
def descEntry : ACModeEntry := ⟨[some "30", some "18"], [], []⟩

/-- A concrete appliance state: defaults `{cool: 26, heat: 20}`, one
"warm" capability entry, raw mode "warm" retained. -/
def exState : ACState :=
  ⟨26, 20, [("warm", exEntry)], Option.none, Option.none, some "warm",
    Option.none, Option.none⟩

/-- A concrete appliance state whose current entry lists temperatures in
descending order. -/
def descState : ACState :=
  ⟨26, 20, [("cool", descEntry)], Option.none, Option.none, some "cool",
    Option.none, Option.none⟩

/-- A freshly constructed state (all dynamic fields still `None`). -/
def initState : ACState :=
  ⟨26, 20, [("warm", exEntry)], Option.none, Option.none, Option.none,
    Option.none, Option.none⟩

/-- The spec's off-mode snapshot: `button = "power-off"`, `mode = "warm"`. -/
def warmSnap : AcSettings := ⟨"warm", some "25", "power-off", "1", "swing"⟩

/-- The state produced by ingesting `warmSnap` into `initState`. -/
def warmRes : ACState :=
  ⟨26, 20, [("warm", exEntry)], some HvacMode.off, some 25, some "warm",
    some "1", some "swing"⟩

/-- Evaluation of `_update` as a single equation: the button test or
the `MODE_REMO_TO_HA` lookup selects the normalized mode (or fails),
and on success the state receives the evident record update. -/
theorem update_eq (st : ACState) (s : AcSettings) :
    _update st s =
      Option.map (fun h =>
          { st with
             remo_mode := some s.mode
             target_temperature := s.temp.bind pyFloatOfString
             hvac_mode := some h
             fan_mode := if s.vol = "" then Option.none else some s.vol
             swing_mode := if s.dir = "" then Option.none else some s.dir })
        (if s.button = "power-off" then some HvacMode.off
          else MODE_REMO_TO_HA s.mode) := by
  unfold _update _update_pre
  simp only [ MODE_HA_TO_REMO]
  by_cases hb : s.button = "power-off"
  · simp [hb]
  · simp only [if_neg hb]
    cases hm : MODE_REMO_TO_HA s.mode <;> simp [hm]

/-- `int("")` raises in Python; the embedded parse returns `none`. -/
theorem pyInt_empty : pyIntOfString "" = Option.none := by decide

/-- When `pyTruthy o = false`, the int conversion of `o` fails: `o` is
`None` or the empty string. -/
theorem bind_pyInt_of_not_truthy (o : Option String) (h : pyTruthy o = false) :
    o.bind pyIntOfString = Option.none := by
  cases o with
  | none => rfl
  | some s =>
      have hs : s = "" := by
        by_contra hne
        simp [pyTruthy, hne] at h
      subst hs
      simpa using pyInt_empty

/-- A successful `map(int, filter(None, l))` returns exactly the parses
of the elements in their original order. -/
theorem mapIntList_filter_eq_filterMap (l : List (Option String)) (ys : List ℤ)
    (h : mapIntList (l.filter pyTruthy) = some ys) :
    ys = l.filterMap (fun o => o.bind pyIntOfString) := by
  induction l generalizing ys with
  | nil =>
      simp [mapIntList] at h
      simp [h.symm]
  | cons o t ih =>
      by_cases ho : pyTruthy o
      · rw [List.filter_cons_of_pos ho] at h
        unfold mapIntList at h
        rcases hint : o.bind pyIntOfString with _ | n
        · rw [hint] at h
          simp at h
        · rw [hint] at h
          rcases hrest : mapIntList (t.filter pyTruthy) with _ | ns
          · rw [hrest] at h
            simp at h
          · rw [hrest] at h
            simp only [Option.some.injEq] at h
            rw [List.filterMap_cons, hint, ← h, ih ns hrest]
      · rw [List.filter_cons_of_neg ho] at h
        rw [List.filterMap_cons, bind_pyInt_of_not_truthy o (by simpa using ho)]
        exact ih ys h

/-- C6: for every one of the six normalized hvac modes `m`, translating
`m` to its raw device token via `MODE_HA_TO_REMO` and back via
`MODE_REMO_TO_HA` yields `m` again. -/
theorem mode_roundtrip (m : HvacMode) :
    MODE_REMO_TO_HA (MODE_HA_TO_REMO m) = some m := by
  cases m <;> rfl

/-- C2 counterexample: on the capability entry with temperature list
`["30", "18"]`, `_current_mode_temp_range` returns `[30, 18]`, which is
not sorted in ascending order — the code filters and converts but never
sorts. -/
theorem temp_range_unsorted_counterexample :
    _current_mode_temp_range descState = some [30, 18] ∧
    ¬ List.Sorted (· ≤ ·) ([30, 18] : List ℤ) := by
  exact ⟨by decide, by decide⟩

/-- C2 amended: `_current_mode_temp_range` returns the entry's
temperature list with empty/absent elements removed and each remaining
element converted to an integer, kept in the entry's original order
(no sorting is applied). -/
theorem temp_range_keeps_entry_order (st : ACState) (e : ACModeEntry)
    (ys : List ℤ) (he : lookupModes st = some e)
    (hy : _current_mode_temp_range st = some ys) :
    ys = e.temp.filterMap (fun o => o.bind pyIntOfString) := by
  unfold _current_mode_temp_range at hy
  rw [he] at hy
  exact mapIntList_filter_eq_filterMap e.temp ys hy

/-- Witness for C2: on the spec's example entry
`["18", "", "30", None]` the range is exactly `[18, 30]`. -/
theorem temp_range_keeps_entry_order_witness :
    _current_mode_temp_range exState = some [18, 30] ∧
    ([18, 30] : List ℤ) =
      exEntry.temp.filterMap (fun o => o.bind pyIntOfString) := by
  refine ⟨by decide, ?_⟩
  exact temp_range_keeps_entry_order exState exEntry [18, 30] (by decide) (by decide)

/-- C1 counterexample: the snapshot
`{mode: "unknown", temp: "25", button: "", vol: "", dir: ""}` has a mode
that is a key of neither the mode-translation table nor the capability
table, and ingestion itself raises (`_update` returns `none`) on it,
contradicting the claim that ingestion always completes. -/
theorem ingest_unknown_mode_raises :
    MODE_REMO_TO_HA "unknown" = Option.none ∧
    lookupDict exState.modes "unknown" = Option.none ∧
    _update exState ⟨"unknown", some "25", "", "", ""⟩ = Option.none := by
  exact ⟨rfl, by decide, by decide⟩

/-- C1 amended: ingestion completes without raising whenever the
snapshot's button is "power-off" — even for a mode token that the
tables do not know, in which case the capability lookups
(`fan_modes`, `swing_modes`, `_current_mode_temp_range`) fail later —
but when the button is not "power-off" and the mode is not a key of the
mode-translation table, the translation lookup raises during ingestion
itself. -/
theorem ingest_error_boundary (st : ACState) (s : AcSettings) :
    (s.button = "power-off" →
      ∃ st', _update st s = some st' ∧ st'.modes = st.modes ∧
        st'.remo_mode = some s.mode ∧
        (lookupDict st.modes s.mode = Option.none →
          fan_modes st' = Option.none ∧ swing_modes st' = Option.none ∧
          _current_mode_temp_range st' = Option.none)) ∧
    (s.button ≠ "power-off" → MODE_REMO_TO_HA s.mode = Option.none →
      _update st s = Option.none) := by
  constructor
  · intro hb
    refine ⟨{ st with
               remo_mode := some s.mode
               target_temperature := s.temp.bind pyFloatOfString
               hvac_mode := some HvacMode.off
               fan_mode := if s.vol = "" then Option.none else some s.vol
               swing_mode := if s.dir = "" then Option.none else some s.dir },
             ?_, rfl, rfl, ?_⟩
    · rw [update_eq, if_pos hb]
      rfl
    · intro hl
      refine ⟨?_, ?_, ?_⟩ <;>
        simp [fan_modes, swing_modes, _current_mode_temp_range, lookupModes, hl]
  · intro hb hm
    rw [update_eq, if_neg hb, hm]
    rfl

/-- Witness for C1: ingesting the unknown-mode snapshot with button
"power-off" succeeds. -/
theorem ingest_error_boundary_witness :
    (_update exState ⟨"unknown", some "25", "power-off", "", ""⟩).isSome = true := by
  obtain ⟨st', h, -, -, -⟩ :=
    (ingest_error_boundary exState ⟨"unknown", some "25", "power-off", "", ""⟩).1 rfl
  simp [h]

/-- C3 counterexample: ingesting
`{mode: "power-off", temp: "25", button: "on", vol: "", dir: ""}`
succeeds and yields `hvac_mode = off` although the button field is not
"power-off" — refuting "hvac_mode is off exactly when button equals
power-off": the translation of the mode field can itself be off. -/
theorem hvac_off_without_poweroff_button :
    (_update exState ⟨"power-off", some "25", "on", "", ""⟩).map ACState.hvac_mode
      = some (some HvacMode.off) ∧
    ("on" : String) ≠ "power-off" := by
  exact ⟨by decide, by decide⟩

/-- C3 amended: after a successful ingestion, `last_raw_mode` is the
snapshot's mode field; `hvac_mode` is off if the button field equals
"power-off", and otherwise it is the `MODE_REMO_TO_HA` translation of
the mode field (which is itself off when the mode field is
"power-off"); the capability table is untouched, so lookups resolve via
the retained raw mode. -/
theorem ingest_mode_fields (st : ACState) (s : AcSettings) (st' : ACState)
    (h : _update st s = some st') :
    st'.remo_mode = some s.mode ∧
    (s.button = "power-off" → st'.hvac_mode = some HvacMode.off) ∧
    (s.button ≠ "power-off" → st'.hvac_mode = MODE_REMO_TO_HA s.mode) ∧
    st'.modes = st.modes := by
  rw [update_eq] at h
  by_cases hb : s.button = "power-off"
  · rw [if_pos hb] at h
    injection h with h
    subst h
    exact ⟨rfl, fun _ => rfl, fun hc => absurd hb hc, rfl⟩
  · rw [if_neg hb] at h
    rcases hm : MODE_REMO_TO_HA s.mode with _ | hv
    · rw [hm] at h
      simp at h
    · rw [hm] at h
      injection h with h
      subst h
      exact ⟨rfl, fun hc => absurd hc hb, fun _ => rfl, rfl⟩

/-- Witness for C3: the spec's off-mode snapshot
(`button = "power-off"`, `mode = "warm"`) yields `hvac_mode = off`,
`last_raw_mode = "warm"`, and the capability lookups resolve via the
"warm" entry. -/
theorem ingest_mode_fields_witness :
    warmRes.remo_mode = some "warm" ∧
    warmRes.hvac_mode = some HvacMode.off ∧
    fan_modes warmRes = some ["1", "auto"] ∧
    swing_modes warmRes = some ["swing", "auto"] := by
  have h := ingest_mode_fields initState warmSnap warmRes (by decide)
  exact ⟨h.1, h.2.1 rfl, by decide, by decide⟩

/-- C4: `set_hvac_mode` posts `{button: "power-off"}` (no temperature
or operation_mode field) for the off mode, and otherwise
`{operation_mode: raw token, temperature: default_temp.get(target
mode)}`, where the default is the configured value for cool/heat and
`None` for every other mode. -/
theorem set_hvac_mode_payload (st : ACState) (m : HvacMode) :
    (m = HvacMode.off →
      (set_hvac_mode st m).2 = [("button", PyVal.str "power-off")]) ∧
    (m ≠ HvacMode.off →
      (set_hvac_mode st m).2 =
        [("operation_mode", PyVal.str (MODE_HA_TO_REMO m)),
         ("temperature", pyOfOptInt (_default_temp_get st m))]) ∧
    _default_temp_get st HvacMode.cool = some st.default_temp_cool ∧
    _default_temp_get st HvacMode.heat = some st.default_temp_heat ∧
    (m ≠ HvacMode.cool → m ≠ HvacMode.heat →
      _default_temp_get st m = Option.none) := by
  refine ⟨?_, ?_, rfl, rfl, ?_⟩
  · rintro rfl
    rfl
  · intro h
    cases m with
    | off => exact absurd rfl h
    | auto => rfl
    | cool => rfl
    | dry => rfl
    | fan_only => rfl
    | heat => rfl
  · intro h1 h2
    cases m with
    | cool => exact absurd rfl h1
    | heat => exact absurd rfl h2
    | off => rfl
    | auto => rfl
    | dry => rfl
    | fan_only => rfl

/-- Witness for C4 at the spec's example configuration
`{cool: 26, heat: 20}`. -/
theorem set_hvac_mode_payload_witness :
    (set_hvac_mode exState HvacMode.off).2 = [("button", PyVal.str "power-off")] ∧
    (set_hvac_mode exState HvacMode.cool).2 =
      [("operation_mode", PyVal.str "cool"), ("temperature", PyVal.int 26)] ∧
    (set_hvac_mode exState HvacMode.auto).2 =
      [("operation_mode", PyVal.str "auto"), ("temperature", PyVal.null)] := by
  refine ⟨(set_hvac_mode_payload exState HvacMode.off).1 rfl, ?_, ?_⟩
  · exact ((set_hvac_mode_payload exState HvacMode.cool).2.1 (by decide)).trans (by decide)
  · exact ((set_hvac_mode_payload exState HvacMode.auto).2.1 (by decide)).trans (by decide)

/-- C5 counterexample: with the configured cool default 26,
`set_hvac_mode(cool)` posts a payload whose temperature value is the
bare integer 26, not a string or null. -/
theorem set_hvac_mode_int_temp_counterexample :
    (set_hvac_mode exState HvacMode.cool).2 =
      [("operation_mode", PyVal.str "cool"), ("temperature", PyVal.int 26)] ∧
    ¬ ((set_hvac_mode exState HvacMode.cool).2.all (fun kv => isStrOrNull kv.2)) := by
  exact ⟨by decide, by decide⟩

/-- C5 amended: every payload is a flat mapping whose values are
strings or null, except the temperature value of a non-off
`set_hvac_mode` payload, which is `default_temp.get(target mode)` — a
configured bare integer for cool/heat, null otherwise; in particular
`set_temperature` always stringifies its temperature value. -/
theorem payload_values_shape (st : ACState) (f d : String) (a : PyTempArg)
    (m : HvacMode) :
    ((set_fan_mode st f).2.all (fun kv => isStrOrNull kv.2)) ∧
    ((async_set_swing_mode st d).2.all (fun kv => isStrOrNull kv.2)) ∧
    (∀ st2 p, set_temperature st a = some (st2, some p) →
      p.all (fun kv => isStrOrNull kv.2)) ∧
    ((set_hvac_mode st m).2.all
      (fun kv => kv.1 == "temperature" || isStrOrNull kv.2)) ∧
    (m ≠ HvacMode.off →
      (set_hvac_mode st m).2.lookup "temperature"
        = some (pyOfOptInt (_default_temp_get st m))) := by
  refine ⟨rfl, rfl, ?_, ?_, ?_⟩
  · intro st2 p hp
    cases a with
    | absent => simp [set_temperature] at hp
    | num q =>
        simp only [set_temperature, pyIntOfArg, Option.some.injEq,
          Prod.mk.injEq] at hp
        rw [← hp.2]
        rfl
    | str s =>
        rcases hs : pyIntOfString s with _ | n
        · simp [set_temperature, pyIntOfArg, hs] at hp
        · simp only [set_temperature, pyIntOfArg, hs, Option.some.injEq,
            Prod.mk.injEq] at hp
          rw [← hp.2]
          rfl
  · cases m <;> rfl
  · intro hm
    cases m with
    | off => exact absurd rfl hm
    | auto => rfl
    | cool => rfl
    | dry => rfl
    | fan_only => rfl
    | heat => rfl

/-- Witness for C5: the fan payload is all strings, and a concrete
`set_temperature` payload is all strings. -/
theorem payload_values_shape_witness :
    ((set_fan_mode exState "low").2.all (fun kv => isStrOrNull kv.2)) ∧
    (([("temperature", PyVal.str "24")] : Payload).all
      (fun kv => isStrOrNull kv.2)) := by
  have h := payload_values_shape exState "low" "auto" (PyTempArg.num 24) HvacMode.cool
  exact ⟨h.1, h.2.2.1 exState [("temperature", PyVal.str "24")] (by decide)⟩

/-- C7 counterexample: the snapshot
`{mode: "bogus", temp: "", button: "on", vol: "", dir: ""}` has an
unparseable temp field, yet ingestion raises — on the mode
translation — refuting "Ingest ... raises no error" over all snapshots
with a bad temp field. -/
theorem ingest_bad_temp_still_raises :
    ((some "" : Option String).bind pyFloatOfString = Option.none) ∧
    _update exState ⟨"bogus", some "", "on", "", ""⟩ = Option.none := by
  exact ⟨by decide, by decide⟩

/-- C7 amended: the temperature handling inside ingestion never raises:
already after the pre-translation statements, `target_temperature` is
`None` whenever the temp field is absent or unparseable (e.g. `""`,
`"abc"`) — even in snapshots where ingestion later fails on the mode
translation — and whenever ingestion completes, `target_temperature`
equals the parsed float value of the temp field (`None` on failure,
the numeric value otherwise, e.g. `"25" ↦ 25`). -/
theorem temp_parse_tolerance (st : ACState) (s : AcSettings) :
    (s.temp.bind pyFloatOfString = Option.none →
      (_update_pre st s).target_temperature = Option.none) ∧
    (∀ st', _update st s = some st' →
      st'.target_temperature = s.temp.bind pyFloatOfString) ∧
    pyFloatOfString "" = Option.none ∧
    pyFloatOfString "abc" = Option.none ∧
    pyFloatOfString "25" = some 25 := by
  refine ⟨?_, ?_, by decide, by decide, by decide⟩
  · intro h
    simp [_update_pre, h]
  · intro st' h
    rw [update_eq] at h
    rcases hv : (if s.button = "power-off" then some HvacMode.off
        else MODE_REMO_TO_HA s.mode) with _ | hm
    · rw [hv] at h
      simp at h
    · rw [hv] at h
      injection h with h
      subst h
      rfl

/-- Witness for C7: a snapshot with temp `"abc"` gets
`target_temperature = None` from the never-failing parse step. -/
theorem temp_parse_tolerance_witness :
    (_update_pre exState ⟨"warm", some "abc", "on", "", ""⟩).target_temperature
      = Option.none := by
  exact (temp_parse_tolerance exState ⟨"warm", some "abc", "on", "", ""⟩).1 (by decide)

/-- C8: `set_temperature` with no temperature value is a no-op — it
raises no error and posts nothing — and with an integer value `n` it
posts exactly `{temperature: toString n}`; in particular the input 24
yields `{temperature: "24"}`. -/
theorem set_temperature_noop_or_encode (st : ACState) :
    set_temperature st PyTempArg.absent = some (st, Option.none) ∧
    (∀ n : ℤ, set_temperature st (PyTempArg.num (n : ℚ)) =
      some (st, some [("temperature", PyVal.str (toString n))])) ∧
    set_temperature st (PyTempArg.num 24) =
      some (st, some [("temperature", PyVal.str "24")]) := by
  have key : ∀ n : ℤ, set_temperature st (PyTempArg.num (n : ℚ)) =
      some (st, some [("temperature", PyVal.str (toString n))]) := by
    intro n
    have ht : pyTrunc (n : ℚ) = n := by
      unfold pyTrunc
      split <;> simp
    simp [set_temperature, pyIntOfArg, ht]
  exact ⟨rfl, key, rfl⟩

/-- C9: none of the four command operations changes any field of the
local state: each returns the state it was given (for `set_temperature`
this holds in every non-raising outcome). -/
theorem commands_preserve_state (st : ACState) (f d : String) (a : PyTempArg)
    (m : HvacMode) :
    (set_fan_mode st f).1 = st ∧
    (async_set_swing_mode st d).1 = st ∧
    (set_hvac_mode st m).1 = st ∧
    (set_temperature st a).map Prod.fst
      = (set_temperature st a).map (fun _ => st) := by
  refine ⟨rfl, rfl, ?_, ?_⟩
  · cases m <;> rfl
  · cases a with
    | absent => rfl
    | num q => rfl
    | str s =>
        rcases hs : pyIntOfString s with _ | n <;>
          simp [set_temperature, pyIntOfArg, hs]

/-- The rational 24.7, written with explicit numerator/denominator. -/
def q24_7 : ℚ := ⟨247, 10, by decide, by decide⟩

/-- C10: for a numeric input `q` the posted temperature is the
stringified truncation of `q` toward zero (`pyTrunc` satisfies
`|pyTrunc q| ≤ |q| < |pyTrunc q| + 1`, and `24.7 ↦ "24"`,
`-24.7 ↦ "-24"`, so it is not a rounding); for a string input not
convertible to an integer (e.g. `"abc"`) the conversion raises before
any payload is produced. -/
theorem set_temperature_truncates_toward_zero (st : ACState) :
    (∀ q : ℚ, set_temperature st (PyTempArg.num q) =
      some (st, some [("temperature", PyVal.str (toString (pyTrunc q)))])) ∧
    (∀ q : ℚ, |(pyTrunc q : ℚ)| ≤ |q| ∧ |q| < |(pyTrunc q : ℚ)| + 1) ∧
    set_temperature st (PyTempArg.num q24_7) =
      some (st, some [("temperature", PyVal.str "24")]) ∧
    set_temperature st (PyTempArg.num (-q24_7)) =
      some (st, some [("temperature", PyVal.str "-24")]) ∧
    set_temperature st (PyTempArg.str "abc") = Option.none := by
  have hnum : ∀ q : ℚ, set_temperature st (PyTempArg.num q) =
      some (st, some [("temperature", PyVal.str (toString (pyTrunc q)))]) :=
    fun _ => rfl
  refine ⟨hnum, ?_, ?_, ?_, rfl⟩
  · intro q
    unfold pyTrunc
    by_cases hq : 0 ≤ q
    · rw [if_pos hq]
      have h1 : (⌊q⌋ : ℚ) ≤ q := Int.floor_le q
      have h2 : q < (⌊q⌋ : ℚ) + 1 := Int.lt_floor_add_one q
      have hf : (0 : ℚ) ≤ (⌊q⌋ : ℚ) := by
        exact_mod_cast Int.floor_nonneg.mpr hq
      rw [abs_of_nonneg hq, abs_of_nonneg hf]
      exact ⟨h1, h2⟩
    · rw [if_neg hq]
      have hq' : q < 0 := not_le.mp hq
      have h1 : q ≤ (⌈q⌉ : ℚ) := Int.le_ceil q
      have h2 : (⌈q⌉ : ℚ) < q + 1 := Int.ceil_lt_add_one q
      have hc : (⌈q⌉ : ℚ) ≤ 0 := by
        have hz : ⌈q⌉ ≤ (0 : ℤ) := Int.ceil_le.mpr (by exact_mod_cast hq'.le)
        exact_mod_cast hz
      rw [abs_of_nonpos hq'.le, abs_of_nonpos hc]
      constructor <;> linarith
  · have h3 : toString (pyTrunc q24_7) = "24" := by decide
    rw [hnum q24_7, h3]
  · have h4 : toString (pyTrunc (-q24_7)) = "-24" := by decide
    rw [hnum (-q24_7), h4]

end NatureRemo
